import Mathlib

set_option maxHeartbeats 1000000
set_option maxRecDepth 100000

/-! Verification development for the CycloneTCP / CycloneCrypto 1.3.5 sources:
the ARIA block cipher (`cyclone_crypto/aria.c`) and the TCP socket API core
(`cyclone_tcp/core/tcp.c`).  The C code is shallowly embedded: machine bytes
are `Fin 256`, 32-bit words are `Nat` reduced `% 2 ^ 32` where overflow can
occur, and the mutable context / socket structures are passed explicitly. -/

/-- Error codes (`error_t`), restricted to the values used by the embedded
functions. -/
inductive ErrorT where
  | noError
  | invalidKeyLength
  | invalidParameter
  | outOfMemory
  | timeout
  | alreadyConnected
  | notConnected
  | connectionFailed
  | connectionReset
  | connectionClosing
  | endOfStream
  | failure
deriving DecidableEq

/-- A machine byte (`uint8_t`). -/
abbrev Byte := Fin 256

/-- XOR of two bytes. -/
def bxor (a b : Byte) : Byte :=
  ⟨a.val ^^^ b.val, by
    have h : a.val ^^^ b.val < 2 ^ 8 :=
      Nat.xor_lt_two_pow (by omega) (by omega)
    omega⟩

theorem bxor_comm (a b : Byte) : bxor a b = bxor b a :=
  Fin.ext (Nat.xor_comm a.val b.val)

theorem bxor_assoc (a b c : Byte) : bxor (bxor a b) c = bxor a (bxor b c) :=
  Fin.ext (Nat.xor_assoc a.val b.val c.val)

theorem bxor_left_comm (a b c : Byte) : bxor a (bxor b c) = bxor b (bxor a c) := by
  rw [← bxor_assoc, bxor_comm a b, bxor_assoc]

theorem bxor_self (a : Byte) : bxor a a = 0 := by
  apply Fin.ext
  show a.val ^^^ a.val = (0 : Fin 256).val
  simp [Nat.xor_self]

theorem bxor_zero (a : Byte) : bxor a 0 = a := by
  apply Fin.ext
  show a.val ^^^ (0 : Fin 256).val = a.val
  simp

theorem zero_bxor (a : Byte) : bxor 0 a = a := by
  rw [bxor_comm]; exact bxor_zero a

theorem bxor_cancel (a b : Byte) : bxor a (bxor a b) = b := by
  rw [← bxor_assoc, bxor_self, zero_bxor]

/-- S-box 1 (`sb1` in aria.c). -/
def sb1T : List Byte :=
  [0x63, 0x7C, 0x77, 0x7B, 0xF2, 0x6B, 0x6F, 0xC5, 0x30, 0x01, 0x67, 0x2B, 0xFE, 0xD7, 0xAB, 0x76,
   0xCA, 0x82, 0xC9, 0x7D, 0xFA, 0x59, 0x47, 0xF0, 0xAD, 0xD4, 0xA2, 0xAF, 0x9C, 0xA4, 0x72, 0xC0,
   0xB7, 0xFD, 0x93, 0x26, 0x36, 0x3F, 0xF7, 0xCC, 0x34, 0xA5, 0xE5, 0xF1, 0x71, 0xD8, 0x31, 0x15,
   0x04, 0xC7, 0x23, 0xC3, 0x18, 0x96, 0x05, 0x9A, 0x07, 0x12, 0x80, 0xE2, 0xEB, 0x27, 0xB2, 0x75,
   0x09, 0x83, 0x2C, 0x1A, 0x1B, 0x6E, 0x5A, 0xA0, 0x52, 0x3B, 0xD6, 0xB3, 0x29, 0xE3, 0x2F, 0x84,
   0x53, 0xD1, 0x00, 0xED, 0x20, 0xFC, 0xB1, 0x5B, 0x6A, 0xCB, 0xBE, 0x39, 0x4A, 0x4C, 0x58, 0xCF,
   0xD0, 0xEF, 0xAA, 0xFB, 0x43, 0x4D, 0x33, 0x85, 0x45, 0xF9, 0x02, 0x7F, 0x50, 0x3C, 0x9F, 0xA8,
   0x51, 0xA3, 0x40, 0x8F, 0x92, 0x9D, 0x38, 0xF5, 0xBC, 0xB6, 0xDA, 0x21, 0x10, 0xFF, 0xF3, 0xD2,
   0xCD, 0x0C, 0x13, 0xEC, 0x5F, 0x97, 0x44, 0x17, 0xC4, 0xA7, 0x7E, 0x3D, 0x64, 0x5D, 0x19, 0x73,
   0x60, 0x81, 0x4F, 0xDC, 0x22, 0x2A, 0x90, 0x88, 0x46, 0xEE, 0xB8, 0x14, 0xDE, 0x5E, 0x0B, 0xDB,
   0xE0, 0x32, 0x3A, 0x0A, 0x49, 0x06, 0x24, 0x5C, 0xC2, 0xD3, 0xAC, 0x62, 0x91, 0x95, 0xE4, 0x79,
   0xE7, 0xC8, 0x37, 0x6D, 0x8D, 0xD5, 0x4E, 0xA9, 0x6C, 0x56, 0xF4, 0xEA, 0x65, 0x7A, 0xAE, 0x08,
   0xBA, 0x78, 0x25, 0x2E, 0x1C, 0xA6, 0xB4, 0xC6, 0xE8, 0xDD, 0x74, 0x1F, 0x4B, 0xBD, 0x8B, 0x8A,
   0x70, 0x3E, 0xB5, 0x66, 0x48, 0x03, 0xF6, 0x0E, 0x61, 0x35, 0x57, 0xB9, 0x86, 0xC1, 0x1D, 0x9E,
   0xE1, 0xF8, 0x98, 0x11, 0x69, 0xD9, 0x8E, 0x94, 0x9B, 0x1E, 0x87, 0xE9, 0xCE, 0x55, 0x28, 0xDF,
   0x8C, 0xA1, 0x89, 0x0D, 0xBF, 0xE6, 0x42, 0x68, 0x41, 0x99, 0x2D, 0x0F, 0xB0, 0x54, 0xBB, 0x16]

/-- S-box 2 (`sb2` in aria.c). -/
def sb2T : List Byte :=
  [0xE2, 0x4E, 0x54, 0xFC, 0x94, 0xC2, 0x4A, 0xCC, 0x62, 0x0D, 0x6A, 0x46, 0x3C, 0x4D, 0x8B, 0xD1,
   0x5E, 0xFA, 0x64, 0xCB, 0xB4, 0x97, 0xBE, 0x2B, 0xBC, 0x77, 0x2E, 0x03, 0xD3, 0x19, 0x59, 0xC1,
   0x1D, 0x06, 0x41, 0x6B, 0x55, 0xF0, 0x99, 0x69, 0xEA, 0x9C, 0x18, 0xAE, 0x63, 0xDF, 0xE7, 0xBB,
   0x00, 0x73, 0x66, 0xFB, 0x96, 0x4C, 0x85, 0xE4, 0x3A, 0x09, 0x45, 0xAA, 0x0F, 0xEE, 0x10, 0xEB,
   0x2D, 0x7F, 0xF4, 0x29, 0xAC, 0xCF, 0xAD, 0x91, 0x8D, 0x78, 0xC8, 0x95, 0xF9, 0x2F, 0xCE, 0xCD,
   0x08, 0x7A, 0x88, 0x38, 0x5C, 0x83, 0x2A, 0x28, 0x47, 0xDB, 0xB8, 0xC7, 0x93, 0xA4, 0x12, 0x53,
   0xFF, 0x87, 0x0E, 0x31, 0x36, 0x21, 0x58, 0x48, 0x01, 0x8E, 0x37, 0x74, 0x32, 0xCA, 0xE9, 0xB1,
   0xB7, 0xAB, 0x0C, 0xD7, 0xC4, 0x56, 0x42, 0x26, 0x07, 0x98, 0x60, 0xD9, 0xB6, 0xB9, 0x11, 0x40,
   0xEC, 0x20, 0x8C, 0xBD, 0xA0, 0xC9, 0x84, 0x04, 0x49, 0x23, 0xF1, 0x4F, 0x50, 0x1F, 0x13, 0xDC,
   0xD8, 0xC0, 0x9E, 0x57, 0xE3, 0xC3, 0x7B, 0x65, 0x3B, 0x02, 0x8F, 0x3E, 0xE8, 0x25, 0x92, 0xE5,
   0x15, 0xDD, 0xFD, 0x17, 0xA9, 0xBF, 0xD4, 0x9A, 0x7E, 0xC5, 0x39, 0x67, 0xFE, 0x76, 0x9D, 0x43,
   0xA7, 0xE1, 0xD0, 0xF5, 0x68, 0xF2, 0x1B, 0x34, 0x70, 0x05, 0xA3, 0x8A, 0xD5, 0x79, 0x86, 0xA8,
   0x30, 0xC6, 0x51, 0x4B, 0x1E, 0xA6, 0x27, 0xF6, 0x35, 0xD2, 0x6E, 0x24, 0x16, 0x82, 0x5F, 0xDA,
   0xE6, 0x75, 0xA2, 0xEF, 0x2C, 0xB2, 0x1C, 0x9F, 0x5D, 0x6F, 0x80, 0x0A, 0x72, 0x44, 0x9B, 0x6C,
   0x90, 0x0B, 0x5B, 0x33, 0x7D, 0x5A, 0x52, 0xF3, 0x61, 0xA1, 0xF7, 0xB0, 0xD6, 0x3F, 0x7C, 0x6D,
   0xED, 0x14, 0xE0, 0xA5, 0x3D, 0x22, 0xB3, 0xF8, 0x89, 0xDE, 0x71, 0x1A, 0xAF, 0xBA, 0xB5, 0x81]

/-- S-box 3 (`sb3` in aria.c, the inverse of S-box 1). -/
def sb3T : List Byte :=
  [0x52, 0x09, 0x6A, 0xD5, 0x30, 0x36, 0xA5, 0x38, 0xBF, 0x40, 0xA3, 0x9E, 0x81, 0xF3, 0xD7, 0xFB,
   0x7C, 0xE3, 0x39, 0x82, 0x9B, 0x2F, 0xFF, 0x87, 0x34, 0x8E, 0x43, 0x44, 0xC4, 0xDE, 0xE9, 0xCB,
   0x54, 0x7B, 0x94, 0x32, 0xA6, 0xC2, 0x23, 0x3D, 0xEE, 0x4C, 0x95, 0x0B, 0x42, 0xFA, 0xC3, 0x4E,
   0x08, 0x2E, 0xA1, 0x66, 0x28, 0xD9, 0x24, 0xB2, 0x76, 0x5B, 0xA2, 0x49, 0x6D, 0x8B, 0xD1, 0x25,
   0x72, 0xF8, 0xF6, 0x64, 0x86, 0x68, 0x98, 0x16, 0xD4, 0xA4, 0x5C, 0xCC, 0x5D, 0x65, 0xB6, 0x92,
   0x6C, 0x70, 0x48, 0x50, 0xFD, 0xED, 0xB9, 0xDA, 0x5E, 0x15, 0x46, 0x57, 0xA7, 0x8D, 0x9D, 0x84,
   0x90, 0xD8, 0xAB, 0x00, 0x8C, 0xBC, 0xD3, 0x0A, 0xF7, 0xE4, 0x58, 0x05, 0xB8, 0xB3, 0x45, 0x06,
   0xD0, 0x2C, 0x1E, 0x8F, 0xCA, 0x3F, 0x0F, 0x02, 0xC1, 0xAF, 0xBD, 0x03, 0x01, 0x13, 0x8A, 0x6B,
   0x3A, 0x91, 0x11, 0x41, 0x4F, 0x67, 0xDC, 0xEA, 0x97, 0xF2, 0xCF, 0xCE, 0xF0, 0xB4, 0xE6, 0x73,
   0x96, 0xAC, 0x74, 0x22, 0xE7, 0xAD, 0x35, 0x85, 0xE2, 0xF9, 0x37, 0xE8, 0x1C, 0x75, 0xDF, 0x6E,
   0x47, 0xF1, 0x1A, 0x71, 0x1D, 0x29, 0xC5, 0x89, 0x6F, 0xB7, 0x62, 0x0E, 0xAA, 0x18, 0xBE, 0x1B,
   0xFC, 0x56, 0x3E, 0x4B, 0xC6, 0xD2, 0x79, 0x20, 0x9A, 0xDB, 0xC0, 0xFE, 0x78, 0xCD, 0x5A, 0xF4,
   0x1F, 0xDD, 0xA8, 0x33, 0x88, 0x07, 0xC7, 0x31, 0xB1, 0x12, 0x10, 0x59, 0x27, 0x80, 0xEC, 0x5F,
   0x60, 0x51, 0x7F, 0xA9, 0x19, 0xB5, 0x4A, 0x0D, 0x2D, 0xE5, 0x7A, 0x9F, 0x93, 0xC9, 0x9C, 0xEF,
   0xA0, 0xE0, 0x3B, 0x4D, 0xAE, 0x2A, 0xF5, 0xB0, 0xC8, 0xEB, 0xBB, 0x3C, 0x83, 0x53, 0x99, 0x61,
   0x17, 0x2B, 0x04, 0x7E, 0xBA, 0x77, 0xD6, 0x26, 0xE1, 0x69, 0x14, 0x63, 0x55, 0x21, 0x0C, 0x7D]

/-- S-box 4 (`sb4` in aria.c, the inverse of S-box 2). -/
def sb4T : List Byte :=
  [0x30, 0x68, 0x99, 0x1B, 0x87, 0xB9, 0x21, 0x78, 0x50, 0x39, 0xDB, 0xE1, 0x72, 0x09, 0x62, 0x3C,
   0x3E, 0x7E, 0x5E, 0x8E, 0xF1, 0xA0, 0xCC, 0xA3, 0x2A, 0x1D, 0xFB, 0xB6, 0xD6, 0x20, 0xC4, 0x8D,
   0x81, 0x65, 0xF5, 0x89, 0xCB, 0x9D, 0x77, 0xC6, 0x57, 0x43, 0x56, 0x17, 0xD4, 0x40, 0x1A, 0x4D,
   0xC0, 0x63, 0x6C, 0xE3, 0xB7, 0xC8, 0x64, 0x6A, 0x53, 0xAA, 0x38, 0x98, 0x0C, 0xF4, 0x9B, 0xED,
   0x7F, 0x22, 0x76, 0xAF, 0xDD, 0x3A, 0x0B, 0x58, 0x67, 0x88, 0x06, 0xC3, 0x35, 0x0D, 0x01, 0x8B,
   0x8C, 0xC2, 0xE6, 0x5F, 0x02, 0x24, 0x75, 0x93, 0x66, 0x1E, 0xE5, 0xE2, 0x54, 0xD8, 0x10, 0xCE,
   0x7A, 0xE8, 0x08, 0x2C, 0x12, 0x97, 0x32, 0xAB, 0xB4, 0x27, 0x0A, 0x23, 0xDF, 0xEF, 0xCA, 0xD9,
   0xB8, 0xFA, 0xDC, 0x31, 0x6B, 0xD1, 0xAD, 0x19, 0x49, 0xBD, 0x51, 0x96, 0xEE, 0xE4, 0xA8, 0x41,
   0xDA, 0xFF, 0xCD, 0x55, 0x86, 0x36, 0xBE, 0x61, 0x52, 0xF8, 0xBB, 0x0E, 0x82, 0x48, 0x69, 0x9A,
   0xE0, 0x47, 0x9E, 0x5C, 0x04, 0x4B, 0x34, 0x15, 0x79, 0x26, 0xA7, 0xDE, 0x29, 0xAE, 0x92, 0xD7,
   0x84, 0xE9, 0xD2, 0xBA, 0x5D, 0xF3, 0xC5, 0xB0, 0xBF, 0xA4, 0x3B, 0x71, 0x44, 0x46, 0x2B, 0xFC,
   0xEB, 0x6F, 0xD5, 0xF6, 0x14, 0xFE, 0x7C, 0x70, 0x5A, 0x7D, 0xFD, 0x2F, 0x18, 0x83, 0x16, 0xA5,
   0x91, 0x1F, 0x05, 0x95, 0x74, 0xA9, 0xC1, 0x5B, 0x4A, 0x85, 0x6D, 0x13, 0x07, 0x4F, 0x4E, 0x45,
   0xB2, 0x0F, 0xC9, 0x1C, 0xA6, 0xBC, 0xEC, 0x73, 0x90, 0x7B, 0xCF, 0x59, 0x8F, 0xA1, 0xF9, 0x2D,
   0xF2, 0xB1, 0x00, 0x94, 0x37, 0x9F, 0xD0, 0x2E, 0x9C, 0x6E, 0x28, 0x3F, 0x80, 0xF0, 0x3D, 0xD3,
   0x25, 0x8A, 0xB5, 0xE7, 0x42, 0xB3, 0xC7, 0xEA, 0xF7, 0x4C, 0x11, 0x33, 0x03, 0xA2, 0xAC, 0x60]

/-- Lookup in S-box 1. -/
def sb1 (i : Byte) : Byte := sb1T.getD i.val 0

/-- Lookup in S-box 2. -/
def sb2 (i : Byte) : Byte := sb2T.getD i.val 0

/-- Lookup in S-box 3. -/
def sb3 (i : Byte) : Byte := sb3T.getD i.val 0

/-- Lookup in S-box 4. -/
def sb4 (i : Byte) : Byte := sb4T.getD i.val 0

/-- A 128-bit string, held as the 16 bytes of the `uint32_t[4]` buffers of
aria.c in memory order. -/
structure Block where
  b0 : Byte
  b1 : Byte
  b2 : Byte
  b3 : Byte
  b4 : Byte
  b5 : Byte
  b6 : Byte
  b7 : Byte
  b8 : Byte
  b9 : Byte
  b10 : Byte
  b11 : Byte
  b12 : Byte
  b13 : Byte
  b14 : Byte
  b15 : Byte
deriving DecidableEq

/-- `XOR128`: bytewise XOR of two 128-bit strings (word-level XOR of the
`uint32_t[4]` views is identical to byte-level XOR). -/
def xor128 (b a : Block) : Block :=
  ⟨bxor b.b0 a.b0, bxor b.b1 a.b1, bxor b.b2 a.b2, bxor b.b3 a.b3,
   bxor b.b4 a.b4, bxor b.b5 a.b5, bxor b.b6 a.b6, bxor b.b7 a.b7,
   bxor b.b8 a.b8, bxor b.b9 a.b9, bxor b.b10 a.b10, bxor b.b11 a.b11,
   bxor b.b12 a.b12, bxor b.b13 a.b13, bxor b.b14 a.b14, bxor b.b15 a.b15⟩

/-- Substitution layer `SL1`. -/
def SL1 (x : Block) : Block :=
  ⟨sb1 x.b0, sb2 x.b1, sb3 x.b2, sb4 x.b3,
   sb1 x.b4, sb2 x.b5, sb3 x.b6, sb4 x.b7,
   sb1 x.b8, sb2 x.b9, sb3 x.b10, sb4 x.b11,
   sb1 x.b12, sb2 x.b13, sb3 x.b14, sb4 x.b15⟩

/-- Substitution layer `SL2`. -/
def SL2 (x : Block) : Block :=
  ⟨sb3 x.b0, sb4 x.b1, sb1 x.b2, sb2 x.b3,
   sb3 x.b4, sb4 x.b5, sb1 x.b6, sb2 x.b7,
   sb3 x.b8, sb4 x.b9, sb1 x.b10, sb2 x.b11,
   sb3 x.b12, sb4 x.b13, sb1 x.b14, sb2 x.b15⟩

/-- Diffusion layer `A`. -/
def A (x : Block) : Block :=
  ⟨bxor x.b3 (bxor x.b4 (bxor x.b6 (bxor x.b8 (bxor x.b9 (bxor x.b13 x.b14))))),
   bxor x.b2 (bxor x.b5 (bxor x.b7 (bxor x.b8 (bxor x.b9 (bxor x.b12 x.b15))))),
   bxor x.b1 (bxor x.b4 (bxor x.b6 (bxor x.b10 (bxor x.b11 (bxor x.b12 x.b15))))),
   bxor x.b0 (bxor x.b5 (bxor x.b7 (bxor x.b10 (bxor x.b11 (bxor x.b13 x.b14))))),
   bxor x.b0 (bxor x.b2 (bxor x.b5 (bxor x.b8 (bxor x.b11 (bxor x.b14 x.b15))))),
   bxor x.b1 (bxor x.b3 (bxor x.b4 (bxor x.b9 (bxor x.b10 (bxor x.b14 x.b15))))),
   bxor x.b0 (bxor x.b2 (bxor x.b7 (bxor x.b9 (bxor x.b10 (bxor x.b12 x.b13))))),
   bxor x.b1 (bxor x.b3 (bxor x.b6 (bxor x.b8 (bxor x.b11 (bxor x.b12 x.b13))))),
   bxor x.b0 (bxor x.b1 (bxor x.b4 (bxor x.b7 (bxor x.b10 (bxor x.b13 x.b15))))),
   bxor x.b0 (bxor x.b1 (bxor x.b5 (bxor x.b6 (bxor x.b11 (bxor x.b12 x.b14))))),
   bxor x.b2 (bxor x.b3 (bxor x.b5 (bxor x.b6 (bxor x.b8 (bxor x.b13 x.b15))))),
   bxor x.b2 (bxor x.b3 (bxor x.b4 (bxor x.b7 (bxor x.b9 (bxor x.b12 x.b14))))),
   bxor x.b1 (bxor x.b2 (bxor x.b6 (bxor x.b7 (bxor x.b9 (bxor x.b11 x.b12))))),
   bxor x.b0 (bxor x.b3 (bxor x.b6 (bxor x.b7 (bxor x.b8 (bxor x.b10 x.b13))))),
   bxor x.b0 (bxor x.b3 (bxor x.b4 (bxor x.b5 (bxor x.b9 (bxor x.b11 x.b14))))),
   bxor x.b1 (bxor x.b2 (bxor x.b4 (bxor x.b5 (bxor x.b8 (bxor x.b10 x.b15)))))⟩

/-- Odd round function `OF`. -/
def OF (d rk : Block) : Block := A (SL1 (xor128 d rk))

/-- Even round function `EF`. -/
def EF (d rk : Block) : Block := A (SL2 (xor128 d rk))

theorem sb3_sb1 : ∀ b : Byte, sb3 (sb1 b) = b := by decide

theorem sb1_sb3 : ∀ b : Byte, sb1 (sb3 b) = b := by decide

theorem sb4_sb2 : ∀ b : Byte, sb4 (sb2 b) = b := by decide

theorem sb2_sb4 : ∀ b : Byte, sb2 (sb4 b) = b := by decide

theorem SL2_SL1 (x : Block) : SL2 (SL1 x) = x := by
  cases x
  simp [SL1, SL2, sb3_sb1, sb4_sb2, sb1_sb3, sb2_sb4]

theorem SL1_SL2 (x : Block) : SL1 (SL2 x) = x := by
  cases x
  simp [SL1, SL2, sb3_sb1, sb4_sb2, sb1_sb3, sb2_sb4]

theorem xor128_cancel (x y : Block) : xor128 (xor128 x y) y = x := by
  cases x; cases y
  simp [xor128, bxor_assoc, bxor_self, bxor_zero]

theorem A_invol (x : Block) : A (A x) = x := by
  cases x
  simp only [A]
  simp [bxor_comm, bxor_left_comm, bxor_assoc, bxor_self, bxor_zero, zero_bxor, bxor_cancel]

theorem xor128_A_A (x y : Block) : xor128 (A x) (A y) = A (xor128 x y) := by
  cases x; cases y
  simp only [A, xor128]
  simp [bxor_comm, bxor_left_comm, bxor_assoc, bxor_self, bxor_zero, zero_bxor, bxor_cancel]

/-- Four `uint32_t` words in host byte order, as used by the `ROL128` section
of `ariaInit` (after the `betoh32` loop). -/
structure Q4 where
  a0 : Nat
  a1 : Nat
  a2 : Nat
  a3 : Nat

/-- Index one of the four words (`(a)[k]` for `k < 4`). -/
def Q4.get (a : Q4) : Nat → Nat
  | 0 => a.a0
  | 1 => a.a1
  | 2 => a.a2
  | _ => a.a3

/-- `ROL128(b, a, n)`: word-level 128-bit left rotation, transcribed from the
macro; the `uint32_t` left shift truncates modulo `2 ^ 32`. -/
def qrol (a : Q4) (n : Nat) : Q4 :=
  ⟨((a.get ((n / 32 + 0) % 4) <<< (n % 32)) % 2 ^ 32) ||| (a.get ((n / 32 + 1) % 4) >>> (32 - n % 32)),
   ((a.get ((n / 32 + 1) % 4) <<< (n % 32)) % 2 ^ 32) ||| (a.get ((n / 32 + 2) % 4) >>> (32 - n % 32)),
   ((a.get ((n / 32 + 2) % 4) <<< (n % 32)) % 2 ^ 32) ||| (a.get ((n / 32 + 3) % 4) >>> (32 - n % 32)),
   ((a.get ((n / 32 + 3) % 4) <<< (n % 32)) % 2 ^ 32) ||| (a.get ((n / 32 + 0) % 4) >>> (32 - n % 32))⟩

/-- `XOR128` on the word view. -/
def qxor (b a : Q4) : Q4 :=
  ⟨b.a0 ^^^ a.a0, b.a1 ^^^ a.a1, b.a2 ^^^ a.a2, b.a3 ^^^ a.a3⟩

/-- `betoh32` of four stored bytes: big-endian word value. -/
def word32 (x0 x1 x2 x3 : Byte) : Nat :=
  x0.val * 2 ^ 24 + x1.val * 2 ^ 16 + x2.val * 2 ^ 8 + x3.val

/-- The `betoh32` loop: read a 16-byte buffer as four big-endian words. -/
def toQ4 (b : Block) : Q4 :=
  ⟨word32 b.b0 b.b1 b.b2 b.b3, word32 b.b4 b.b5 b.b6 b.b7,
   word32 b.b8 b.b9 b.b10 b.b11, word32 b.b12 b.b13 b.b14 b.b15⟩

/-- Byte `k` (shift amount) of a 32-bit word. -/
def byteAt (x : Nat) (k : Nat) : Byte :=
  ⟨x / 2 ^ k % 256, Nat.mod_lt _ (by norm_num)⟩

/-- The `htobe32` loop: store four words back as big-endian bytes. -/
def ofQ4 (a : Q4) : Block :=
  ⟨byteAt a.a0 24, byteAt a.a0 16, byteAt a.a0 8, byteAt a.a0 0,
   byteAt a.a1 24, byteAt a.a1 16, byteAt a.a1 8, byteAt a.a1 0,
   byteAt a.a2 24, byteAt a.a2 16, byteAt a.a2 8, byteAt a.a2 0,
   byteAt a.a3 24, byteAt a.a3 16, byteAt a.a3 8, byteAt a.a3 0⟩

/-- Key scheduling constants `c + 0` (bytes as stored by `BETOH32`). -/
def ck0 : Block :=
  ⟨0x51, 0x7C, 0xC1, 0xB7, 0x27, 0x22, 0x0A, 0x94,
   0xFE, 0x13, 0xAB, 0xE8, 0xFA, 0x9A, 0x6E, 0xE0⟩

/-- Key scheduling constants `c + 4`. -/
def ck4 : Block :=
  ⟨0x6D, 0xB1, 0x4A, 0xCC, 0x9E, 0x21, 0xC8, 0x20,
   0xFF, 0x28, 0xB1, 0xD5, 0xEF, 0x5D, 0xE2, 0xB0⟩

/-- Key scheduling constants `c + 8`. -/
def ck8 : Block :=
  ⟨0xDB, 0x92, 0x37, 0x1D, 0x21, 0x26, 0xE9, 0x70,
   0x03, 0x24, 0x97, 0x75, 0x04, 0xE8, 0xC9, 0x0E⟩

/-- ARIA context (`AriaContext`): round count `nr` and the 68-word `ek` / `dk`
arrays viewed as sequences of 128-bit round keys (index `i` is words
`4 i .. 4 i + 3`).  Entries the C code leaves unwritten keep the previous
contents of the context memory. -/
structure AriaContext where
  nr : Nat
  ek : Nat → Block
  dk : Nat → Block

/-- The 17 encryption round keys `ek1, ..., ek17` of `ariaInit`
(`ROL128` / `XOR128` pairs followed by the `htobe32` loop); indices other
than `0 .. 16` keep the old context contents. -/
def ekSchedule (w0 w1 w2 w3 : Q4) (old : Nat → Block) : Nat → Block
  | 0 => ofQ4 (qxor (qrol w1 109) w0)
  | 1 => ofQ4 (qxor (qrol w2 109) w1)
  | 2 => ofQ4 (qxor (qrol w3 109) w2)
  | 3 => ofQ4 (qxor (qrol w0 109) w3)
  | 4 => ofQ4 (qxor (qrol w1 97) w0)
  | 5 => ofQ4 (qxor (qrol w2 97) w1)
  | 6 => ofQ4 (qxor (qrol w3 97) w2)
  | 7 => ofQ4 (qxor (qrol w0 97) w3)
  | 8 => ofQ4 (qxor (qrol w1 61) w0)
  | 9 => ofQ4 (qxor (qrol w2 61) w1)
  | 10 => ofQ4 (qxor (qrol w3 61) w2)
  | 11 => ofQ4 (qxor (qrol w0 61) w3)
  | 12 => ofQ4 (qxor (qrol w1 31) w0)
  | 13 => ofQ4 (qxor (qrol w2 31) w1)
  | 14 => ofQ4 (qxor (qrol w3 31) w2)
  | 15 => ofQ4 (qxor (qrol w0 31) w3)
  | 16 => ofQ4 (qxor (qrol w1 19) w0)
  | j => old j

/-- The decryption round keys of `ariaInit`: `dk1 = ek(nr+1)`,
`dk(i+1) = A(ek(nr-i+1))` for `1 ≤ i ≤ nr-1`, `dk(nr+1) = ek1`
(0-based round-key indices here); other indices keep the old contents. -/
def mkDk (nr : Nat) (ek old : Nat → Block) : Nat → Block := fun i =>
  if i = 0 then ek nr
  else if i < nr then A (ek (nr - i))
  else if i = nr then ek 0
  else old i

/-- Byte `i` of the `w[16]` buffer after `memset(w, 0, 64)` and
`memcpy(w, key, keyLength)`. -/
def keyByte (key : List Byte) (i : Nat) : Byte := key.getD i 0

/-- Sixteen consecutive key-buffer bytes starting at `off`. -/
def keyBlock (key : List Byte) (off : Nat) : Block :=
  ⟨keyByte key off, keyByte key (off + 1), keyByte key (off + 2), keyByte key (off + 3),
   keyByte key (off + 4), keyByte key (off + 5), keyByte key (off + 6), keyByte key (off + 7),
   keyByte key (off + 8), keyByte key (off + 9), keyByte key (off + 10), keyByte key (off + 11),
   keyByte key (off + 12), keyByte key (off + 13), keyByte key (off + 14), keyByte key (off + 15)⟩

/-- Body of `ariaInit` after the constants `ck1, ck2, ck3` and the round count
`nr` have been selected: compute `KL`, `KR`, the intermediate values
`W0 .. W3`, the encryption round keys and the decryption round keys. -/
def ariaInitCore (key : List Byte) (ck1 ck2 ck3 : Block) (nr : Nat)
    (ctx : AriaContext) : AriaContext :=
  let kl := keyBlock key 0
  let kr := keyBlock key 16
  let w1 := xor128 (OF kl ck1) kr
  let w2 := xor128 (EF w1 ck2) kl
  let w3 := xor128 (OF w2 ck3) w1
  let ek := ekSchedule (toQ4 kl) (toQ4 w1) (toQ4 w2) (toQ4 w3) ctx.ek
  { nr := nr, ek := ek, dk := mkDk nr ek ctx.dk }

/-- `ariaInit`: reject invalid key lengths, otherwise run the key schedule
with the constants and round count selected by the master key length.
The context is passed and returned explicitly (it is a pointer in C). -/
def ariaInit (ctx : AriaContext) (key : List Byte) : ErrorT × AriaContext :=
  if key.length ≠ 16 ∧ key.length ≠ 24 ∧ key.length ≠ 32 then
    (ErrorT.invalidKeyLength, ctx)
  else if key.length = 16 then
    (ErrorT.noError, ariaInitCore key ck0 ck4 ck8 12 ctx)
  else if key.length = 24 then
    (ErrorT.noError, ariaInitCore key ck4 ck8 ck0 14 ctx)
  else
    (ErrorT.noError, ariaInitCore key ck8 ck0 ck4 16 ctx)

/-- The unconditional "Apply 11 rounds" prelude of `ariaEncryptBlock` and
`ariaDecryptBlock`, generic in the round-key array. -/
def aria11Rounds (rk : Nat → Block) (p : Block) : Block :=
  OF (EF (OF (EF (OF (EF (OF (EF (OF (EF (OF p (rk 0))
    (rk 1)) (rk 2)) (rk 3)) (rk 4)) (rk 5)) (rk 6)) (rk 7)) (rk 8)) (rk 9)) (rk 10)

/-- `ariaEncryptBlock`: 11 unconditional rounds with `ek`, then a tail
selected by the round count. -/
def ariaEncryptBlock (ctx : AriaContext) (input : Block) : Block :=
  let p := aria11Rounds ctx.ek input
  if ctx.nr = 12 then
    xor128 (SL2 (xor128 p (ctx.ek 11))) (ctx.ek 12)
  else if ctx.nr = 14 then
    xor128 (SL2 (xor128 (OF (EF p (ctx.ek 11)) (ctx.ek 12)) (ctx.ek 13))) (ctx.ek 14)
  else
    xor128 (SL2 (xor128 (OF (EF (OF (EF p (ctx.ek 11)) (ctx.ek 12)) (ctx.ek 13)) (ctx.ek 14))
      (ctx.ek 15))) (ctx.ek 16)

/-- `ariaDecryptBlock`: identical structure, using the decryption keys `dk`. -/
def ariaDecryptBlock (ctx : AriaContext) (input : Block) : Block :=
  let p := aria11Rounds ctx.dk input
  if ctx.nr = 12 then
    xor128 (SL2 (xor128 p (ctx.dk 11))) (ctx.dk 12)
  else if ctx.nr = 14 then
    xor128 (SL2 (xor128 (OF (EF p (ctx.dk 11)) (ctx.dk 12)) (ctx.dk 13))) (ctx.dk 14)
  else
    xor128 (SL2 (xor128 (OF (EF (OF (EF p (ctx.dk 11)) (ctx.dk 12)) (ctx.dk 13)) (ctx.dk 14))
      (ctx.dk 15))) (ctx.dk 16)

/-- All-zero block. -/
def zeroBlock : Block := ⟨0, 0, 0, 0, 0, 0, 0, 0, 0, 0, 0, 0, 0, 0, 0, 0⟩

/-- A context whose memory is all zero, used as the pre-`ariaInit` state in
concrete computations. -/
def zeroCtx : AriaContext := ⟨0, fun _ => zeroBlock, fun _ => zeroBlock⟩

theorem roundtrip12 (ek old : Nat → Block) (p : Block) :
    ariaDecryptBlock ⟨12, ek, mkDk 12 ek old⟩ (ariaEncryptBlock ⟨12, ek, mkDk 12 ek old⟩ p) = p := by
  simp [ariaEncryptBlock, ariaDecryptBlock, aria11Rounds, mkDk, OF, EF,
        xor128_A_A, xor128_cancel, A_invol, SL1_SL2, SL2_SL1]

theorem roundtrip14 (ek old : Nat → Block) (p : Block) :
    ariaDecryptBlock ⟨14, ek, mkDk 14 ek old⟩ (ariaEncryptBlock ⟨14, ek, mkDk 14 ek old⟩ p) = p := by
  simp [ariaEncryptBlock, ariaDecryptBlock, aria11Rounds, mkDk, OF, EF,
        xor128_A_A, xor128_cancel, A_invol, SL1_SL2, SL2_SL1]

theorem roundtrip16 (ek old : Nat → Block) (p : Block) :
    ariaDecryptBlock ⟨16, ek, mkDk 16 ek old⟩ (ariaEncryptBlock ⟨16, ek, mkDk 16 ek old⟩ p) = p := by
  simp [ariaEncryptBlock, ariaDecryptBlock, aria11Rounds, mkDk, OF, EF,
        xor128_A_A, xor128_cancel, A_invol, SL1_SL2, SL2_SL1]

/-- C1: for every key of length 16, 24 or 32 bytes and every 16-byte block,
decrypting the encryption of the block under the context produced by
`ariaInit` yields the block again. -/
theorem aria_encrypt_decrypt_roundtrip (ctx0 : AriaContext) (key : List Byte) (p : Block)
    (h : key.length = 16 ∨ key.length = 24 ∨ key.length = 32) :
    ariaDecryptBlock (ariaInit ctx0 key).2 (ariaEncryptBlock (ariaInit ctx0 key).2 p) = p := by
  rcases h with h | h | h <;> simp only [ariaInit, h, ariaInitCore] <;> norm_num
  · exact roundtrip12 _ _ p
  · exact roundtrip14 _ _ p
  · exact roundtrip16 _ _ p

/-- RFC 5794 128-bit test key `000102030405060708090A0B0C0D0E0F`. -/
def rfc5794Key128 : List Byte :=
  [0x00, 0x01, 0x02, 0x03, 0x04, 0x05, 0x06, 0x07, 0x08, 0x09, 0x0A, 0x0B, 0x0C, 0x0D, 0x0E, 0x0F]

/-- RFC 5794 192-bit test key. -/
def rfc5794Key192 : List Byte :=
  [0x00, 0x01, 0x02, 0x03, 0x04, 0x05, 0x06, 0x07, 0x08, 0x09, 0x0A, 0x0B, 0x0C, 0x0D, 0x0E, 0x0F,
   0x10, 0x11, 0x12, 0x13, 0x14, 0x15, 0x16, 0x17]

/-- RFC 5794 256-bit test key. -/
def rfc5794Key256 : List Byte :=
  [0x00, 0x01, 0x02, 0x03, 0x04, 0x05, 0x06, 0x07, 0x08, 0x09, 0x0A, 0x0B, 0x0C, 0x0D, 0x0E, 0x0F,
   0x10, 0x11, 0x12, 0x13, 0x14, 0x15, 0x16, 0x17, 0x18, 0x19, 0x1A, 0x1B, 0x1C, 0x1D, 0x1E, 0x1F]

/-- RFC 5794 test plaintext `00112233445566778899AABBCCDDEEFF`. -/
def rfc5794Plain : Block :=
  ⟨0x00, 0x11, 0x22, 0x33, 0x44, 0x55, 0x66, 0x77, 0x88, 0x99, 0xAA, 0xBB, 0xCC, 0xDD, 0xEE, 0xFF⟩

/-- RFC 5794 ciphertext for the 128-bit key. -/
def rfc5794Cipher128 : Block :=
  ⟨0xD7, 0x18, 0xFB, 0xD6, 0xAB, 0x64, 0x4C, 0x73, 0x9D, 0xA9, 0x5F, 0x3B, 0xE6, 0x45, 0x17, 0x78⟩

/-- RFC 5794 ciphertext for the 192-bit key. -/
def rfc5794Cipher192 : Block :=
  ⟨0x26, 0x44, 0x9C, 0x18, 0x05, 0xDB, 0xE7, 0xAA, 0x25, 0xA4, 0x68, 0xCE, 0x26, 0x3A, 0x9E, 0x79⟩

/-- RFC 5794 ciphertext for the 256-bit key. -/
def rfc5794Cipher256 : Block :=
  ⟨0xF9, 0x2B, 0xD7, 0xC7, 0x9F, 0xB7, 0x2E, 0x2F, 0x2B, 0x8F, 0x80, 0xC1, 0x97, 0x2D, 0x24, 0xFC⟩

/-- Witness for C1 at the RFC 5794 128-bit key and test plaintext. -/
theorem aria_encrypt_decrypt_roundtrip_witness :
    ariaDecryptBlock (ariaInit zeroCtx rfc5794Key128).2
      (ariaEncryptBlock (ariaInit zeroCtx rfc5794Key128).2 rfc5794Plain) = rfc5794Plain :=
  aria_encrypt_decrypt_roundtrip zeroCtx rfc5794Key128 rfc5794Plain (Or.inl rfl)

/-- C2: `ariaInit` on the RFC 5794 test keys sets `nr` to 12, 14 and 16, and
`ariaEncryptBlock` maps the test plaintext to the RFC 5794 ciphertexts. -/
theorem aria_rfc5794_vectors :
    (ariaInit zeroCtx rfc5794Key128).2.nr = 12 ∧
    ariaEncryptBlock (ariaInit zeroCtx rfc5794Key128).2 rfc5794Plain = rfc5794Cipher128 ∧
    (ariaInit zeroCtx rfc5794Key192).2.nr = 14 ∧
    ariaEncryptBlock (ariaInit zeroCtx rfc5794Key192).2 rfc5794Plain = rfc5794Cipher192 ∧
    (ariaInit zeroCtx rfc5794Key256).2.nr = 16 ∧
    ariaEncryptBlock (ariaInit zeroCtx rfc5794Key256).2 rfc5794Plain = rfc5794Cipher256 := by
  decide

/-- Modelled from the spec: the RFC 5794 data-randomizing sequence — rounds
`1 .. n` alternate the odd round function (`SL1` then `A`) and the even round
function (`SL2` then `A`), round `i` using round key `i − 1` (0-based). -/
def ariaSpecRounds (rk : Nat → Block) (p : Block) : Nat → Block
  | 0 => p
  | n + 1 =>
    if (n + 1) % 2 = 1 then OF (ariaSpecRounds rk p n) (rk n)
    else EF (ariaSpecRounds rk p n) (rk n)

/-- Modelled from the spec: RFC 5794 encryption — `nr − 1` full alternating
rounds followed by the final XOR, `SL2`, XOR tail with the last two round
keys. -/
def ariaEncryptRFC (ctx : AriaContext) (p : Block) : Block :=
  xor128 (SL2 (xor128 (ariaSpecRounds ctx.ek p (ctx.nr - 1)) (ctx.ek (ctx.nr - 1))))
    (ctx.ek ctx.nr)

/-- C6: for each of the three valid round counts, the fixed 11-round prelude
plus key-length-dependent tail of `ariaEncryptBlock` computes exactly the
RFC 5794 sequence of `nr − 1` alternating rounds followed by the
XOR / `SL2` / XOR tail. -/
theorem ariaEncryptBlock_eq_rfc (ctx : AriaContext) (p : Block)
    (h : ctx.nr = 12 ∨ ctx.nr = 14 ∨ ctx.nr = 16) :
    ariaEncryptBlock ctx p = ariaEncryptRFC ctx p := by
  obtain ⟨nr, ek, dk⟩ := ctx
  rcases h with h | h | h <;> (simp only at h; subst h) <;> rfl

/-- Witness for C6 at the context built from the RFC 5794 128-bit key. -/
theorem ariaEncryptBlock_eq_rfc_witness :
    ariaEncryptBlock (ariaInit zeroCtx rfc5794Key128).2 rfc5794Plain =
      ariaEncryptRFC (ariaInit zeroCtx rfc5794Key128).2 rfc5794Plain :=
  ariaEncryptBlock_eq_rfc _ _ (Or.inl rfl)

theorem mkDk_zero (nr : Nat) (ek old : Nat → Block) : mkDk nr ek old 0 = ek nr := by
  simp [mkDk]

theorem mkDk_mid (nr i : Nat) (ek old : Nat → Block) (h1 : 1 ≤ i) (h2 : i < nr) :
    mkDk nr ek old i = A (ek (nr - i)) := by
  simp only [mkDk]
  rw [if_neg (by omega), if_pos h2]

theorem mkDk_last (nr : Nat) (ek old : Nat → Block) (h : 1 ≤ nr) :
    mkDk nr ek old nr = ek 0 := by
  simp only [mkDk]
  rw [if_neg (by omega), if_neg (by omega)]
  simp

/-- C7: after a successful `ariaInit`, the decryption round keys satisfy
`dk 0 = ek nr`, `dk i = A (ek (nr − i))` for `1 ≤ i < nr`, and
`dk nr = ek 0`, indices counting 128-bit round keys. -/
theorem ariaInit_dk_schedule (ctx0 : AriaContext) (key : List Byte)
    (h : key.length = 16 ∨ key.length = 24 ∨ key.length = 32) :
    (ariaInit ctx0 key).2.dk 0 = (ariaInit ctx0 key).2.ek (ariaInit ctx0 key).2.nr ∧
    (∀ i, 1 ≤ i → i < (ariaInit ctx0 key).2.nr →
      (ariaInit ctx0 key).2.dk i = A ((ariaInit ctx0 key).2.ek ((ariaInit ctx0 key).2.nr - i))) ∧
    (ariaInit ctx0 key).2.dk (ariaInit ctx0 key).2.nr = (ariaInit ctx0 key).2.ek 0 := by
  rcases h with h | h | h <;> simp only [ariaInit, h, ariaInitCore] <;> norm_num <;>
    exact ⟨mkDk_zero _ _ _, fun i h1 h2 => mkDk_mid _ i _ _ h1 h2, mkDk_last _ _ _ (by omega)⟩

/-- Witness for C7 at the RFC 5794 128-bit key: the first decryption round
key equals the last encryption round key. -/
theorem ariaInit_dk_schedule_witness :
    (ariaInit zeroCtx rfc5794Key128).2.dk 0 =
      (ariaInit zeroCtx rfc5794Key128).2.ek (ariaInit zeroCtx rfc5794Key128).2.nr :=
  (ariaInit_dk_schedule zeroCtx rfc5794Key128 (Or.inl rfl)).1

/-- C9: `ariaInit` returns `INVALID_KEY_LENGTH` exactly when the key length is
not 16, 24 or 32 bytes, leaving the context unmodified in that case; for the
three valid lengths it returns `NO_ERROR` and sets `nr` to 12, 14 or 16. -/
theorem ariaInit_key_length (ctx : AriaContext) (key : List Byte) :
    ((ariaInit ctx key).1 = ErrorT.invalidKeyLength ↔
      ¬(key.length = 16 ∨ key.length = 24 ∨ key.length = 32)) ∧
    (¬(key.length = 16 ∨ key.length = 24 ∨ key.length = 32) → (ariaInit ctx key).2 = ctx) ∧
    (key.length = 16 → (ariaInit ctx key).1 = ErrorT.noError ∧ (ariaInit ctx key).2.nr = 12) ∧
    (key.length = 24 → (ariaInit ctx key).1 = ErrorT.noError ∧ (ariaInit ctx key).2.nr = 14) ∧
    (key.length = 32 → (ariaInit ctx key).1 = ErrorT.noError ∧ (ariaInit ctx key).2.nr = 16) := by
  by_cases h : key.length = 16 ∨ key.length = 24 ∨ key.length = 32
  · rcases h with h | h | h <;> simp [ariaInit, h, ariaInitCore]
  · push_neg at h
    obtain ⟨h1, h2, h3⟩ := h
    simp [ariaInit, h1, h2, h3]

/-- Witness for C9 at a 1-byte key: the error is reported and the context is
returned unchanged. -/
theorem ariaInit_key_length_witness :
    (ariaInit zeroCtx [0x00]).1 = ErrorT.invalidKeyLength ∧
      (ariaInit zeroCtx [0x00]).2 = zeroCtx :=
  ⟨(ariaInit_key_length zeroCtx [0x00]).1.mpr (by decide),
   (ariaInit_key_length zeroCtx [0x00]).2.1 (by decide)⟩

/-- TCP FSM states (`TcpState` in tcp.h). -/
inductive TcpState where
  | CLOSED
  | LISTEN
  | SYN_SENT
  | SYN_RECEIVED
  | ESTABLISHED
  | FIN_WAIT_1
  | FIN_WAIT_2
  | CLOSE_WAIT
  | CLOSING
  | LAST_ACK
  | TIME_WAIT
deriving DecidableEq

/-- Socket type tags; `unused` marks a free socket-table slot. -/
inductive SocketType where
  | unused
  | stream
  | dgram
  | raw
deriving DecidableEq

/-- An outgoing TCP segment, reduced to the fields the embedded functions
set: flags, sequence number, acknowledgment number and payload length. -/
structure Segment where
  syn : Bool
  ack : Bool
  rst : Bool
  fin : Bool
  seqNum : Nat
  ackNum : Nat
  payloadLength : Nat
deriving DecidableEq

/-- An entry of a listening socket's SYN queue (`TcpSynQueueItem`). -/
structure SynQueueItem where
  srcAddr : Nat
  srcPort : Nat
  destAddr : Nat
  interface : Nat
  isn : Nat
  mss : Nat
deriving DecidableEq

/-- The socket / TCB fields used by the embedded tcp.c functions.  IP
addresses and interfaces are abstracted to numeric identifiers; the receive
buffer contents are a function from absolute sequence number to byte. -/
structure Socket where
  state : TcpState
  type : SocketType
  ownedFlag : Bool
  resetFlag : Bool
  closedFlag : Bool
  iss : Nat
  irs : Nat
  sndUna : Nat
  sndNxt : Nat
  sndUser : Nat
  sndWnd : Nat
  rcvNxt : Nat
  rcvUser : Nat
  rcvWnd : Nat
  mss : Nat
  rto : Nat
  cwnd : Nat
  ssthresh : Nat
  txBufferSize : Nat
  rxBufferSize : Nat
  rxBuf : Nat → Byte
  overrideTimer : Option Nat
  tcbPresent : Bool
  synQueue : List SynQueueItem
  localPort : Nat
  remotePort : Nat
  localIpAddr : Nat
  remoteIpAddr : Nat
  interface : Nat

/-- 32-bit wrapping subtraction, as computed on `uint32_t` operands. -/
def sub32 (a b : Nat) : Nat := (a + (2 ^ 32 - b % 2 ^ 32)) % 2 ^ 32

/-- Modelled from the spec: the `TCP_OVERRIDE_TIMEOUT` tunable (tcp.h is not
under src/; the spec lists it as a configuration constant without fixing a
value, and no theorem depends on the value). -/
def TCP_OVERRIDE_TIMEOUT : Nat := 500

/-- Modelled from the spec: the `TCP_INITIAL_RTO` tunable (value likewise
unconstrained). -/
def TCP_INITIAL_RTO : Nat := 1000

/-- Modelled from the spec: the `TCP_INITIAL_WINDOW` tunable (number of
segments of the initial congestion window). -/
def TCP_INITIAL_WINDOW : Nat := 3

/-- Modelled from the spec: `tcpChangeState` (tcp_misc.c, not under src/)
switches the TCP FSM to the given state. -/
def tcpChangeState (s : Socket) (newState : TcpState) : Socket :=
  { s with state := newState }

/-- Modelled from the spec: `tcpDeleteControlBlock` (tcp_misc.c, not under
src/) frees the TCB — timers are stopped and queued items released. -/
def tcpDeleteControlBlock (s : Socket) : Socket :=
  { s with tcbPresent := false, overrideTimer := none, synQueue := [] }

/-- Modelled from the spec: `tcpSendSegment` (tcp_misc.c, not under src/)
builds a TCP segment with the given flags, sequence number, acknowledgment
number and payload length and hands it to the IP layer; the built segment is
returned so that emissions can be observed.  Transmission failures are not
modelled. -/
def tcpSendSegment (s : Socket) (syn ack rst fin : Bool)
    (seqNum ackNum payloadLength : Nat) (addToQueue : Bool) : ErrorT × Segment :=
  (ErrorT.noError, ⟨syn, ack, rst, fin, seqNum, ackNum, payloadLength⟩)

/-- `tcpAbort` (tcp.c lines 704-748): in SYN-RECEIVED, ESTABLISHED,
FIN-WAIT-1, FIN-WAIT-2 or CLOSE-WAIT send an RST carrying `sndNxt`, enter
CLOSED, delete the TCB and mark the slot unused; in TIME-WAIT only clear
`ownedFlag`; in any other state enter CLOSED, delete the TCB and mark the
slot unused without sending anything. -/
def tcpAbort (s : Socket) : ErrorT × Socket × List Segment :=
  match s.state with
  | .SYN_RECEIVED | .ESTABLISHED | .FIN_WAIT_1 | .FIN_WAIT_2 | .CLOSE_WAIT =>
    let es := tcpSendSegment s false false true false s.sndNxt 0 0 false
    let s1 := tcpDeleteControlBlock (tcpChangeState s .CLOSED)
    (es.1, { s1 with type := .unused }, [es.2])
  | .TIME_WAIT =>
    (ErrorT.noError, { s with ownedFlag := false }, [])
  | _ =>
    let s1 := tcpDeleteControlBlock (tcpChangeState s .CLOSED)
    (ErrorT.noError, { s1 with type := .unused }, [])

/-- A baseline socket value: a closed, owned stream socket with empty
buffers, used to build the concrete sockets of the witnesses. -/
def baseSocket : Socket where
  state := .CLOSED
  type := .stream
  ownedFlag := true
  resetFlag := false
  closedFlag := false
  iss := 0
  irs := 0
  sndUna := 0
  sndNxt := 0
  sndUser := 0
  sndWnd := 0
  rcvNxt := 0
  rcvUser := 0
  rcvWnd := 0
  mss := 536
  rto := 1000
  cwnd := 0
  ssthresh := 65535
  txBufferSize := 2860
  rxBufferSize := 2860
  rxBuf := fun _ => 0
  overrideTimer := none
  tcbPresent := true
  synQueue := []
  localPort := 80
  remotePort := 49152
  localIpAddr := 1
  remoteIpAddr := 2
  interface := 0

/-- A socket sitting in the CLOSING state. -/
def closingSocket : Socket :=
  { baseSocket with state := .CLOSING, sndNxt := 1001, sndUna := 1001, rcvNxt := 2002 }

/-- C3 counterexample: `tcpAbort` on a socket in CLOSING (a synchronised
state) emits no segment at all — in particular no RST — contradicting the
claim that an RST is sent in every synchronised state. -/
theorem tcpAbort_closing_no_rst :
    ¬ ∃ seg ∈ (tcpAbort closingSocket).2.2, seg.rst = true := by
  simp [tcpAbort, closingSocket, baseSocket, tcpChangeState, tcpDeleteControlBlock]

/-- C3 (amended): `tcpAbort` sends an RST carrying `sndNxt` exactly in
SYN-RECEIVED, ESTABLISHED, FIN-WAIT-1, FIN-WAIT-2 and CLOSE-WAIT, entering
CLOSED, deleting the TCB and marking the slot unused; in CLOSING and
LAST-ACK it closes, deletes the TCB and marks the slot unused without
sending an RST; in TIME-WAIT it only clears `ownedFlag` and leaves the TCB
to the 2MSL timer. -/
theorem tcpAbort_states (s : Socket) :
    ((s.state = .SYN_RECEIVED ∨ s.state = .ESTABLISHED ∨ s.state = .FIN_WAIT_1 ∨
      s.state = .FIN_WAIT_2 ∨ s.state = .CLOSE_WAIT) →
      (tcpAbort s).2.2 = [⟨false, false, true, false, s.sndNxt, 0, 0⟩] ∧
      (tcpAbort s).2.1.state = .CLOSED ∧
      (tcpAbort s).2.1.tcbPresent = false ∧
      (tcpAbort s).2.1.type = .unused) ∧
    ((s.state = .CLOSING ∨ s.state = .LAST_ACK) →
      (tcpAbort s).2.2 = [] ∧
      (tcpAbort s).2.1.state = .CLOSED ∧
      (tcpAbort s).2.1.tcbPresent = false ∧
      (tcpAbort s).2.1.type = .unused) ∧
    (s.state = .TIME_WAIT →
      (tcpAbort s).2.2 = [] ∧
      (tcpAbort s).2.1 = { s with ownedFlag := false }) := by
  cases hst : s.state <;>
    simp [tcpAbort, hst, tcpChangeState, tcpDeleteControlBlock, tcpSendSegment]

/-- Witness for the amended C3: an ESTABLISHED socket gets the RST / CLOSED /
TCB-deleted / slot-unused treatment. -/
theorem tcpAbort_states_witness :
    (tcpAbort { baseSocket with state := .ESTABLISHED }).2.2 =
      [⟨false, false, true, false, ({ baseSocket with state := .ESTABLISHED } : Socket).sndNxt, 0, 0⟩] ∧
    (tcpAbort { baseSocket with state := .ESTABLISHED }).2.1.state = .CLOSED ∧
    (tcpAbort { baseSocket with state := .ESTABLISHED }).2.1.tcbPresent = false ∧
    (tcpAbort { baseSocket with state := .ESTABLISHED }).2.1.type = .unused :=
  (tcpAbort_states { baseSocket with state := .ESTABLISHED }).1 (Or.inr (Or.inl rfl))

/-- Modelled from the spec: `socketOpen` (socket.c, not under src/) yields a
fresh stream socket in CLOSED state; allocation failure is not modelled. -/
def socketOpen : Socket := { baseSocket with ownedFlag := false }

/-- `tcpAccept` (tcp.c lines 148-308): refuse unless the socket listens;
otherwise pop the head SYN-queue item (an empty queue after the wait means
timeout), open and initialise a new socket per lines 219-301, send a SYN+ACK
and enter SYN-RECEIVED.  `newIss` stands for the `rand()` result; blocking,
allocation failure and segment transmission failure are not modelled.
Returns the accepted socket (if any), the updated listener and the emitted
segments. -/
def tcpAccept (s : Socket) (newIss : Nat) : Option Socket × Socket × List Segment :=
  if s.state ≠ .LISTEN then (none, s, [])
  else
    match s.synQueue with
    | [] => (none, s, [])
    | item :: rest =>
      let ns0 := { socketOpen with
        ownedFlag := true,
        interface := item.interface,
        localIpAddr := item.destAddr,
        localPort := s.localPort,
        remoteIpAddr := item.srcAddr,
        remotePort := item.srcPort,
        mss := item.mss,
        iss := newIss,
        irs := item.isn,
        sndUna := newIss,
        sndNxt := (newIss + 1) % 2 ^ 32,
        rcvNxt := (item.isn + 1) % 2 ^ 32,
        rcvUser := 0,
        rcvWnd := socketOpen.rxBufferSize,
        rto := TCP_INITIAL_RTO,
        cwnd := min (TCP_INITIAL_WINDOW * item.mss) socketOpen.txBufferSize,
        ssthresh := 65535 }
      let es := tcpSendSegment ns0 true true false false ns0.iss ns0.rcvNxt 0 true
      let ns := tcpChangeState ns0 .SYN_RECEIVED
      (some ns, { s with synQueue := rest }, [es.2])

/-- C10: on a socket that is not in LISTEN state, `tcpAccept` returns no new
socket, leaves the listening socket (including its SYN queue) untouched and
emits nothing. -/
theorem tcpAccept_not_listen (s : Socket) (newIss : Nat) (h : s.state ≠ .LISTEN) :
    tcpAccept s newIss = (none, s, []) := by
  simp [tcpAccept, h]

/-- Witness for C10 at a CLOSING socket. -/
theorem tcpAccept_not_listen_witness :
    tcpAccept closingSocket 0 = (none, closingSocket, []) :=
  tcpAccept_not_listen closingSocket 0 (by decide)


/-- The occupancy of the send buffer as computed by `tcpSend`:
`sndUser + sndNxt - sndUna` in `uint32_t` arithmetic. -/
def usedBytes (s : Socket) : Nat :=
  (s.sndUser + s.sndNxt + (2 ^ 32 - s.sndUna % 2 ^ 32)) % 2 ^ 32

/-- One iteration of the copy loop of `tcpSend` (tcp.c lines 336-400) after
a successful TX_READY wait, with `remaining = length - totalLength` bytes
still to accept: the state check, the buffer-occupancy sanity check, the
copy of `n = min(free, remaining)` bytes followed by the `sndUser` update,
and the override-timer arming.  `tcpWriteTxBuffer` changes no TCB variable,
and the `tcpNagleAlgo` transmission step lives in tcp_misc.c (not under
src/), so neither is modelled.  Returns the updated socket and `n`, or the
error the iteration returns. -/
def tcpSendIter (s : Socket) (remaining : Nat) : Except ErrorT (Socket × Nat) :=
  match s.state with
  | .ESTABLISHED | .CLOSE_WAIT =>
    if usedBytes s ≥ s.txBufferSize then .error .failure
    else
      let n := min (s.txBufferSize - usedBytes s) remaining
      let s1 := { s with sndUser := (s.sndUser + n) % 2 ^ 32 }
      let s2 := if s1.sndUser = n
                then { s1 with overrideTimer := some TCP_OVERRIDE_TIMEOUT }
                else s1
      .ok (s2, n)
  | .LAST_ACK | .FIN_WAIT_1 | .FIN_WAIT_2 | .CLOSING | .TIME_WAIT =>
    .error .connectionClosing
  | _ => .error (if s.resetFlag then .connectionReset else .notConnected)

/-- C5: a copy-loop iteration of `tcpSend` preserves invariant I1.  If
`sndUser + (sndNxt − sndUna) ≤ txBufferSize` (computed modulo `2 ^ 32`)
holds on entry, then either the buffer is exactly full and the iteration
returns an error without copying, or it copies `n = min(free, remaining)`
bytes with `free = txBufferSize − (sndUser + sndNxt − sndUna)`, advances
`sndUser` by `n`, and the inequality still holds afterwards. -/
theorem tcpSend_iteration_invariant (s : Socket) (remaining : Nat)
    (hstate : s.state = .ESTABLISHED ∨ s.state = .CLOSE_WAIT)
    (htx : s.txBufferSize < 2 ^ 32)
    (hI1 : usedBytes s ≤ s.txBufferSize) :
    (usedBytes s = s.txBufferSize → tcpSendIter s remaining = .error .failure) ∧
    (usedBytes s < s.txBufferSize →
      ∃ s2 n, tcpSendIter s remaining = .ok (s2, n) ∧
        n = min (s.txBufferSize - usedBytes s) remaining ∧
        s2.sndUser = (s.sndUser + n) % 2 ^ 32 ∧
        s2.sndNxt = s.sndNxt ∧ s2.sndUna = s.sndUna ∧
        s2.txBufferSize = s.txBufferSize ∧
        usedBytes s2 ≤ s2.txBufferSize) := by
  constructor
  · intro hfull
    have hge : usedBytes s ≥ s.txBufferSize := le_of_eq hfull.symm
    rcases hstate with h | h <;> simp [tcpSendIter, h, hge]
  · intro hlt
    have hge : ¬ usedBytes s ≥ s.txBufferSize := by omega
    have harith : usedBytes { s with
        sndUser := (s.sndUser + min (s.txBufferSize - usedBytes s) remaining) % 2 ^ 32 } ≤
        s.txBufferSize := by
      simp only [usedBytes]
      simp only [show (2:Nat) ^ 32 = 4294967296 from by norm_num] at *
      simp only [usedBytes] at hI1 hlt
      simp only [show (2:Nat) ^ 32 = 4294967296 from by norm_num] at hI1 hlt
      omega
    by_cases harm :
        (s.sndUser + min (s.txBufferSize - usedBytes s) remaining) % 2 ^ 32 =
          min (s.txBufferSize - usedBytes s) remaining
    · refine ⟨{ s with
          sndUser := (s.sndUser + min (s.txBufferSize - usedBytes s) remaining) % 2 ^ 32,
          overrideTimer := some TCP_OVERRIDE_TIMEOUT },
        min (s.txBufferSize - usedBytes s) remaining, ?_, rfl, rfl, rfl, rfl, rfl, ?_⟩
      · have harm2 : (s.sndUser + min (s.txBufferSize - usedBytes s) remaining) % 4294967296 =
            min (s.txBufferSize - usedBytes s) remaining := by simpa using harm
        rcases hstate with h | h <;> simp [tcpSendIter, h, hge, harm, harm2]
      · exact harith
    · refine ⟨{ s with
          sndUser := (s.sndUser + min (s.txBufferSize - usedBytes s) remaining) % 2 ^ 32 },
        min (s.txBufferSize - usedBytes s) remaining, ?_, rfl, rfl, rfl, rfl, rfl, ?_⟩
      · have harm2 : ¬ (s.sndUser + min (s.txBufferSize - usedBytes s) remaining) % 4294967296 =
            min (s.txBufferSize - usedBytes s) remaining := by simpa using harm
        rcases hstate with h | h <;> simp [tcpSendIter, h, hge, harm, harm2]
      · exact harith

/-- C8: a copy-loop iteration of `tcpSend` arms the override timer with
duration `TCP_OVERRIDE_TIMEOUT` exactly when the post-copy `sndUser` equals
the number of bytes just copied — that is, when the TX buffer held no
unsent user data before the copy; otherwise the timer is left untouched. -/
theorem tcpSend_override_timer (s : Socket) (remaining : Nat)
    (hstate : s.state = .ESTABLISHED ∨ s.state = .CLOSE_WAIT)
    (hw : s.sndUser + remaining < 2 ^ 32) :
    ∀ s2 n, tcpSendIter s remaining = .ok (s2, n) →
      (s.sndUser = 0 → s2.overrideTimer = some TCP_OVERRIDE_TIMEOUT) ∧
      (s.sndUser ≠ 0 → s2.overrideTimer = s.overrideTimer) := by
  intro s2 n heq
  by_cases hfull : usedBytes s ≥ s.txBufferSize
  · rcases hstate with h | h <;> simp [tcpSendIter, h, hfull] at heq
  · have hK : (2:Nat) ^ 32 = 4294967296 := by norm_num
    have hmod : (s.sndUser + min (s.txBufferSize - usedBytes s) remaining) % 2 ^ 32 =
        s.sndUser + min (s.txBufferSize - usedBytes s) remaining := by
      have hle : min (s.txBufferSize - usedBytes s) remaining ≤ remaining := min_le_right _ _
      rw [hK]; rw [hK] at hw; omega
    by_cases hzero : s.sndUser = 0
    · have harm : (s.sndUser + min (s.txBufferSize - usedBytes s) remaining) % 2 ^ 32 =
          min (s.txBufferSize - usedBytes s) remaining := by
        rw [hmod, hzero, Nat.zero_add]
      have harm2 : (s.sndUser + min (s.txBufferSize - usedBytes s) remaining) % 4294967296 =
          min (s.txBufferSize - usedBytes s) remaining := by rw [← hK]; exact harm
      rcases hstate with h | h <;>
        simp [tcpSendIter, h, hfull, harm, harm2] at heq <;>
        obtain ⟨h1, h2⟩ := heq <;>
        constructor <;> intro hu
      · rw [← h1]
      · exact absurd hzero hu
      · rw [← h1]
      · exact absurd hzero hu
    · have harm : ¬ (s.sndUser + min (s.txBufferSize - usedBytes s) remaining) % 2 ^ 32 =
          min (s.txBufferSize - usedBytes s) remaining := by
        rw [hmod]; omega
      have harm2 : ¬ (s.sndUser + min (s.txBufferSize - usedBytes s) remaining) % 4294967296 =
          min (s.txBufferSize - usedBytes s) remaining := by rw [← hK]; exact harm
      rcases hstate with h | h <;>
        simp [tcpSendIter, h, hfull, harm, harm2] at heq <;>
        obtain ⟨h1, h2⟩ := heq <;>
        constructor <;> intro hu
      · exact absurd hu hzero
      · rw [← h1]
      · exact absurd hu hzero
      · rw [← h1]

/-- Receive flags: `SOCKET_FLAG_WAIT_ALL`, and `SOCKET_FLAG_BREAK_CHAR` with
the break character from the low byte of `flags`. -/
structure SockFlags where
  waitAll : Bool
  breakChar : Option Byte

/-- Modelled from the spec: `tcpReadRxBuffer` (tcp_misc.c, not under src/)
reads `n` bytes of the receive buffer starting at absolute sequence number
`seqNum`; the socket does not change. -/
def tcpReadRxBuffer (s : Socket) (seqNum n : Nat) : List Byte :=
  (List.range n).map (fun k => s.rxBuf ((seqNum + k) % 2 ^ 32))

/-- Modelled from the spec: `tcpUpdateReceiveWindow` (tcp_misc.c, not under
src/) re-advertises freed buffer space unless SWS avoidance withholds the
update (never re-open the window by less than `min(MSS, rxBufferSize / 2)`);
only `rcvWnd` changes. -/
def tcpUpdateReceiveWindow (s : Socket) : Socket :=
  let freeSpace := s.rxBufferSize - s.rcvUser
  if freeSpace - s.rcvWnd ≥ min s.mss (s.rxBufferSize / 2) then
    { s with rcvWnd := freeSpace }
  else s

theorem tcpUpdateReceiveWindow_fields (s : Socket) :
    (tcpUpdateReceiveWindow s).state = s.state ∧
    (tcpUpdateReceiveWindow s).rcvUser = s.rcvUser ∧
    (tcpUpdateReceiveWindow s).resetFlag = s.resetFlag ∧
    (tcpUpdateReceiveWindow s).closedFlag = s.closedFlag := by
  unfold tcpUpdateReceiveWindow
  by_cases h : s.rxBufferSize - s.rcvUser - s.rcvWnd ≥ min s.mss (s.rxBufferSize / 2) <;>
    simp [h]

/-- The per-iteration state dispatch of `tcpReceive` (the `switch` of tcp.c
lines 461-514): either an immediate return value, or the sequence number of
the first byte to read. -/
def tcpReceiveCheckState (s : Socket) (received : Nat) : (ErrorT × Socket × Nat) ⊕ Nat :=
  match s.state with
  | .ESTABLISHED | .FIN_WAIT_1 | .FIN_WAIT_2 =>
    .inr (sub32 s.rcvNxt s.rcvUser)
  | .CLOSE_WAIT | .LAST_ACK | .CLOSING | .TIME_WAIT =>
    if s.rcvUser = 0 then
      .inl (if received > 0 then (.noError, s, received) else (.endOfStream, s, received))
    else
      .inr (sub32 (sub32 s.rcvNxt 1) s.rcvUser)
  | _ =>
    if s.resetFlag then .inl (.connectionReset, s, received)
    else if ¬ s.closedFlag then .inl (.notConnected, s, received)
    else if s.rcvUser = 0 then
      .inl (if received > 0 then (.noError, s, received) else (.endOfStream, s, received))
    else
      .inr (sub32 (sub32 s.rcvNxt 1) s.rcvUser)

/-- The read loop of `tcpReceive` (tcp.c lines 452-560), `received` bytes
delivered so far.  `tcpWaitForEvents` is modelled from the spec as returning
the awaited RX_READY event (timeouts are not modelled).  The loop is driven
by structural fuel: every pass that does not return delivers at least one
byte, so fuel `size` can never run out before `received` reaches `size`, and
the fuel-exhausted result coincides with the loop-exit result. -/
def tcpReceiveLoop : Nat → Socket → Nat → SockFlags → Nat → ErrorT × Socket × Nat
  | 0, s, _, _, received => (.noError, s, received)
  | fuel + 1, s, size, flags, received =>
    if received < size then
      match tcpReceiveCheckState s received with
      | .inl r => r
      | .inr seqNum =>
        if s.rcvUser = 0 then (.failure, s, received)
        else
          let n := min s.rcvUser (size - received)
          let data := tcpReadRxBuffer s seqNum n
          let n2 := match flags.breakChar with
            | some ch => min n (data.findIdx (fun b => b = ch) + 1)
            | none => n
          let s2 := tcpUpdateReceiveWindow { s with rcvUser := s.rcvUser - n2 }
          match flags.breakChar with
          | some ch =>
            if data.getD (n2 - 1) 0 = ch then (.noError, s2, received + n2)
            else tcpReceiveLoop fuel s2 size flags (received + n2)
          | none =>
            if flags.waitAll then tcpReceiveLoop fuel s2 size flags (received + n2)
            else (.noError, s2, received + n2)
    else (.noError, s, received)

/-- `tcpReceive` (tcp.c lines 434-564): refuse on a listening socket, then
run the read loop with no byte delivered yet. -/
def tcpReceive (s : Socket) (size : Nat) (flags : SockFlags) : ErrorT × Socket × Nat :=
  if s.state = .LISTEN then (.notConnected, s, 0)
  else tcpReceiveLoop size s size flags 0

/-- In CLOSE-WAIT, LAST-ACK, CLOSING or TIME-WAIT with an empty receive
buffer, any further loop pass returns NO_ERROR when bytes were already
delivered by this call. -/
theorem tcpReceiveLoop_drained (fuel : Nat) (s : Socket) (size : Nat) (flags : SockFlags)
    (received : Nat)
    (hstate : s.state = .CLOSE_WAIT ∨ s.state = .LAST_ACK ∨ s.state = .CLOSING ∨
      s.state = .TIME_WAIT)
    (hru : s.rcvUser = 0) (hrec : 0 < received) :
    tcpReceiveLoop fuel s size flags received = (.noError, s, received) := by
  cases fuel with
  | zero => rfl
  | succ f =>
    by_cases hlt : received < size
    · rcases hstate with h | h | h | h <;>
        simp [tcpReceiveLoop, hlt, tcpReceiveCheckState, h, hru, hrec]
    · simp [tcpReceiveLoop, hlt]

/-- C4 (amended): in CLOSE-WAIT, LAST-ACK, CLOSING or TIME-WAIT the caller
drains the remaining bytes and, once `rcvUser = 0`, gets NO_ERROR when this
call already delivered bytes and END_OF_STREAM otherwise — regardless of
`resetFlag`; CONNECTION_RESET is returned only in the CLOSED state, where
the reset check precedes the drain logic, and CLOSED without `closedFlag`
yields NOT_CONNECTED. -/
theorem tcpReceive_terminal_states (s : Socket) (size : Nat) (hsize : 0 < size) :
    ((s.state = .CLOSE_WAIT ∨ s.state = .LAST_ACK ∨ s.state = .CLOSING ∨
        s.state = .TIME_WAIT) →
      (s.rcvUser = 0 → tcpReceive s size ⟨false, none⟩ = (.endOfStream, s, 0)) ∧
      (0 < s.rcvUser → s.rcvUser ≤ size →
        (tcpReceive s size ⟨true, none⟩).1 = .noError ∧
        (tcpReceive s size ⟨true, none⟩).2.2 = s.rcvUser ∧
        (tcpReceive s size ⟨true, none⟩).2.1.rcvUser = 0)) ∧
    (s.state = .CLOSED →
      (s.resetFlag = true → tcpReceive s size ⟨false, none⟩ = (.connectionReset, s, 0)) ∧
      (s.resetFlag = false → s.closedFlag = false →
        tcpReceive s size ⟨false, none⟩ = (.notConnected, s, 0)) ∧
      (s.resetFlag = false → s.closedFlag = true → s.rcvUser = 0 →
        tcpReceive s size ⟨false, none⟩ = (.endOfStream, s, 0))) := by
  obtain ⟨f, rfl⟩ : ∃ f, size = f + 1 := ⟨size - 1, by omega⟩
  constructor
  · intro hstate
    have hnl : ¬ s.state = .LISTEN := by
      rcases hstate with h | h | h | h <;> simp [h]
    constructor
    · intro hru
      rcases hstate with h | h | h | h <;>
        simp [tcpReceive, hnl, tcpReceiveLoop, tcpReceiveCheckState, h, hru]
    · intro hpos hle
      have hru : ¬ s.rcvUser = 0 := by omega
      have hmin : min s.rcvUser (f + 1) = s.rcvUser := by omega
      have step1 : tcpReceive s (f + 1) ⟨true, none⟩ =
          tcpReceiveLoop f (tcpUpdateReceiveWindow { s with rcvUser := 0 }) (f + 1)
            ⟨true, none⟩ s.rcvUser := by
        rcases hstate with h | h | h | h <;>
          simp [tcpReceive, hnl, tcpReceiveLoop, tcpReceiveCheckState, h, hru, hmin,
            Nat.sub_self]
      have hf := tcpUpdateReceiveWindow_fields { s with rcvUser := 0 }
      have hstate2 : (tcpUpdateReceiveWindow { s with rcvUser := 0 }).state = .CLOSE_WAIT ∨
          (tcpUpdateReceiveWindow { s with rcvUser := 0 }).state = .LAST_ACK ∨
          (tcpUpdateReceiveWindow { s with rcvUser := 0 }).state = .CLOSING ∨
          (tcpUpdateReceiveWindow { s with rcvUser := 0 }).state = .TIME_WAIT := by
        rw [hf.1]
        exact hstate
      have hru2 : (tcpUpdateReceiveWindow { s with rcvUser := 0 }).rcvUser = 0 := by
        rw [hf.2.1]
      have hdone := tcpReceiveLoop_drained f (tcpUpdateReceiveWindow { s with rcvUser := 0 })
        (f + 1) ⟨true, none⟩ s.rcvUser hstate2 hru2 hpos
      rw [step1, hdone]
      exact ⟨rfl, rfl, hru2⟩
  · intro hst
    have hnl : ¬ s.state = .LISTEN := by simp [hst]
    refine ⟨?_, ?_, ?_⟩
    · intro hrf
      simp [tcpReceive, hnl, tcpReceiveLoop, tcpReceiveCheckState, hst, hrf]
    · intro hrf hcf
      simp [tcpReceive, hnl, tcpReceiveLoop, tcpReceiveCheckState, hst, hrf, hcf]
    · intro hrf hcf hru
      simp [tcpReceive, hnl, tcpReceiveLoop, tcpReceiveCheckState, hst, hrf, hcf, hru]

/-- A CLOSE-WAIT socket whose peer reset is flagged but whose buffer is
already drained. -/
def closeWaitResetSocket : Socket :=
  { baseSocket with state := .CLOSE_WAIT, resetFlag := true, closedFlag := true, rcvUser := 0 }

/-- C4 counterexample: on a CLOSE-WAIT socket with `resetFlag` set and an
empty buffer, `tcpReceive` returns END_OF_STREAM, not CONNECTION_RESET as
the claim requires. -/
theorem tcpReceive_reset_not_honored :
    closeWaitResetSocket.resetFlag = true ∧
    (tcpReceive closeWaitResetSocket 1 ⟨false, none⟩).1 = ErrorT.endOfStream ∧
    ¬ (tcpReceive closeWaitResetSocket 1 ⟨false, none⟩).1 = ErrorT.connectionReset := by
  refine ⟨rfl, ?_, ?_⟩ <;> decide

/-- A CLOSE-WAIT socket holding two undelivered bytes. -/
def closeWaitDataSocket : Socket :=
  { baseSocket with state := .CLOSE_WAIT, rcvUser := 2, rcvNxt := 103 }

/-- Witness for the amended C4: a CLOSE-WAIT socket holding two bytes is
drained with NO_ERROR. -/
theorem tcpReceive_terminal_states_witness :
    (tcpReceive closeWaitDataSocket 4 ⟨true, none⟩).1 = .noError ∧
    (tcpReceive closeWaitDataSocket 4 ⟨true, none⟩).2.2 = closeWaitDataSocket.rcvUser ∧
    (tcpReceive closeWaitDataSocket 4 ⟨true, none⟩).2.1.rcvUser = 0 :=
  ((tcpReceive_terminal_states closeWaitDataSocket 4 (by decide)).1 (Or.inl rfl)).2
    (by decide) (by decide)

/-- An ESTABLISHED socket with empty buffers. -/
def establishedSocket : Socket := { baseSocket with state := .ESTABLISHED }

/-- Witness for C5 at an empty ESTABLISHED socket. -/
theorem tcpSend_iteration_invariant_witness :
    ∃ s2 n, tcpSendIter establishedSocket 100 = .ok (s2, n) ∧
      n = min (establishedSocket.txBufferSize - usedBytes establishedSocket) 100 ∧
      s2.sndUser = (establishedSocket.sndUser + n) % 2 ^ 32 ∧
      s2.sndNxt = establishedSocket.sndNxt ∧ s2.sndUna = establishedSocket.sndUna ∧
      s2.txBufferSize = establishedSocket.txBufferSize ∧
      usedBytes s2 ≤ s2.txBufferSize :=
  (tcpSend_iteration_invariant establishedSocket 100 (Or.inl rfl) (by decide) (by decide)).2
    (by decide)

/-- Witness for C8: an ESTABLISHED socket with no unsent data arms the
override timer on the first copied chunk. -/
theorem tcpSend_override_timer_witness :
    establishedSocket.sndUser = 0 ∧
    ({ establishedSocket with
        sndUser := 100,
        overrideTimer := some TCP_OVERRIDE_TIMEOUT } : Socket).overrideTimer =
      some TCP_OVERRIDE_TIMEOUT :=
  ⟨rfl, (tcpSend_override_timer establishedSocket 100 (Or.inl rfl) (by decide)
    { establishedSocket with
        sndUser := 100,
        overrideTimer := some TCP_OVERRIDE_TIMEOUT }
    100 rfl).1 rfl⟩
